import Mathlib

/-!
Shallow embedding of the `bevy_streamline_ui` repository.

The embedding covers the two core subsystems of the crate:

* the text-editing engine of `src/nodes/text_field.rs` (cursor, selection,
  edit operations, the 9-run text projector and the key-event handler), and
* the node-tree compiler of `src/nodes/mod.rs`, `src/builders/bundle.rs`
  and the data blocks in `src/blocks/`.

Numeric `f32` payloads are modelled as rationals, Rust `String` buffers as
`List Char` indexed by character position, asset handles as natural numbers
and the asset server as a function from paths to handles.  Mutation is
modelled by explicit state passing; each Lean definition mirrors one Rust
function of the source and keeps its name where Lean allows it.
-/

namespace StreamlineUi

/-- Model of `bevy::ui::Val`: a UI length value. -/
inductive Val where
  | auto
  | px (v : ℚ)
  | percent (v : ℚ)
  | vw (v : ℚ)
  | vh (v : ℚ)
  | vMin (v : ℚ)
  | vMax (v : ℚ)
deriving DecidableEq, Repr

/-- Model of `bevy::render::color::Color`: the crate only ever names the
constants BLACK, BLUE and GRAY; other colors are carried opaquely. -/
inductive UiColor where
  | black
  | blue
  | gray
  | rgba (r g b a : ℚ)
deriving DecidableEq, Repr

/-- Model of `bevy::ui::UiRect`. -/
structure UiRect where
  left : Val
  right : Val
  top : Val
  bottom : Val
deriving DecidableEq, Repr

/-- Model of `UiRect::all`. -/
def UiRect.all (v : Val) : UiRect :=
  { left := v, right := v, top := v, bottom := v }

/-- Model of `bevy::ui::PositionType`. -/
inductive PositionType where
  | relative
  | absolute
deriving DecidableEq, Repr

/-- Model of `bevy::ui::AlignContent` (variants used by the crate). -/
inductive AlignContent where
  | default
  | flexStart
  | center
  | flexEnd
deriving DecidableEq, Repr

/-- Model of `bevy::ui::JustifyContent` (variants used by the crate). -/
inductive JustifyContent where
  | default
  | start
  | center
  | stop
deriving DecidableEq, Repr

/-- Model of `bevy::ui::AlignItems` (variants used by the crate). -/
inductive AlignItems where
  | default
  | flexStart
  | center
  | flexEnd
deriving DecidableEq, Repr

/-- Model of `bevy::ui::JustifyItems` (variants used by the crate). -/
inductive JustifyItems where
  | default
  | start
  | center
  | stop
deriving DecidableEq, Repr

/-- Model of `bevy::ui::Style`, restricted to the fields the crate writes. -/
structure Style where
  position_type : PositionType
  left : Val
  right : Val
  top : Val
  bottom : Val
  width : Val
  height : Val
  margin : UiRect
  align_content : AlignContent
  justify_content : JustifyContent
  align_items : AlignItems
  justify_items : JustifyItems
deriving DecidableEq, Repr

/-- Model of `Style::default()` in bevy: every offset is `Val::Auto`, the
position type is relative, the margin is all zero pixels and the alignment
fields take their `Default` variants. -/
def Style.default : Style where
  position_type := .relative
  left := .auto
  right := .auto
  top := .auto
  bottom := .auto
  width := .auto
  height := .auto
  margin := UiRect.all (.px 0)
  align_content := .default
  justify_content := .default
  align_items := .default
  justify_items := .default

/-- Model of `AnchorPoint` from `src/blocks/position.rs`. -/
inductive AnchorPoint where
  | topLeft
  | topCenter
  | topRight
  | centerLeft
  | center
  | centerRight
  | bottomLeft
  | bottomCenter
  | bottomRight
deriving DecidableEq, Repr

/-- Model of `center_margin_hor` from `src/blocks/position.rs`: keep the
vertical margins and replace the horizontal margins by `Auto`. -/
def center_margin_hor (margin : UiRect) : UiRect :=
  { top := margin.top, bottom := margin.bottom, left := .auto, right := .auto }

/-- Model of `center_margin_ver` from `src/blocks/position.rs`: keep the
horizontal margins and replace the vertical margins by `Auto`. -/
def center_margin_ver (margin : UiRect) : UiRect :=
  { top := .auto, bottom := .auto, left := margin.left, right := margin.right }

/-- Model of `center_margin` from `src/blocks/position.rs`. -/
def center_margin : UiRect :=
  { top := .auto, bottom := .auto, left := .auto, right := .auto }

/-- Model of `set_anchor_point` from `src/blocks/position.rs`.  The margin is
first set on all four edges, then each anchor point pins its edges and the
centered axes replace their margins by `Auto`. -/
def set_anchor_point (style : Style) (point : AnchorPoint) (margin : Val) : Style :=
  let style := { style with margin := UiRect.all margin }
  match point with
  | .topLeft =>
      { style with position_type := .absolute,
                   top := .px 0, bottom := .auto, left := .px 0, right := .auto }
  | .topCenter =>
      { style with position_type := .absolute,
                   top := .px 0, bottom := .auto, left := .px 0, right := .px 0,
                   margin := center_margin_hor style.margin }
  | .topRight =>
      { style with position_type := .absolute,
                   top := .px 0, bottom := .auto, right := .px 0, left := .auto }
  | .centerLeft =>
      { style with position_type := .absolute,
                   top := .px 0, bottom := .px 0, left := .px 0, right := .auto,
                   margin := center_margin_ver style.margin }
  | .center =>
      { style with position_type := .absolute,
                   top := .px 0, bottom := .px 0, left := .px 0, right := .px 0,
                   margin := center_margin }
  | .centerRight =>
      { style with position_type := .absolute,
                   top := .px 0, bottom := .px 0, left := .auto, right := .px 0,
                   margin := center_margin_ver style.margin }
  | .bottomLeft =>
      { style with position_type := .absolute,
                   top := .auto, bottom := .px 0, left := .px 0, right := .auto }
  | .bottomCenter =>
      { style with position_type := .absolute,
                   top := .auto, bottom := .px 0, left := .px 0, right := .px 0,
                   margin := center_margin_hor style.margin }
  | .bottomRight =>
      { style with position_type := .absolute,
                   top := .auto, bottom := .px 0, left := .auto, right := .px 0 }

/-! ## Text editing model (`src/nodes/text_field.rs`) -/

/-- Model of the constant `CURSOR_HANDLE`: the shared font handle used for
the cursor glyph runs.  Handles are modelled as natural numbers. -/
def CURSOR_HANDLE : Nat := 10482756907980398621

/-- Model of `bevy::text::TextStyle`. -/
structure TextStyle where
  font : Nat
  font_size : ℚ
  color : UiColor
deriving DecidableEq, Repr

/-- Model of `bevy::text::TextSection`: a run of text with one style.  The
text value is a list of characters, mirroring the character iterators the
source uses to slice the buffer. -/
structure TextSection where
  value : List Char
  style : TextStyle
deriving DecidableEq, Repr

/-- Model of `bevy::text::JustifyText`. -/
inductive JustifyText where
  | left
  | center
  | right
deriving DecidableEq, Repr

/-- Model of `bevy::text::BreakLineOn`. -/
inductive BreakLineOn where
  | wordBoundary
  | anyCharacter
  | noWrap
deriving DecidableEq, Repr

/-- Model of `bevy::text::Text`, restricted to the fields the crate writes. -/
structure Text where
  sections : List TextSection
  justify : JustifyText
  linebreak_behavior : BreakLineOn
deriving DecidableEq, Repr

/-- Model of `Text::default()`. -/
def Text.default : Text where
  sections := []
  justify := .left
  linebreak_behavior := .wordBoundary

/-- Model of `TextSelection` from `src/nodes/text_field.rs`: a start index
and a length. -/
structure TextSelection where
  start : Nat
  length : Nat
deriving DecidableEq, Repr

/-- Model of `TextSelection::end` (named `endIdx` because `end` is reserved
in Lean): the exclusive end index `start + length`. -/
def TextSelection.endIdx (sel : TextSelection) : Nat :=
  sel.start + sel.length

/-- Model of `TextSelection::is_empty`. -/
def TextSelection.is_empty (sel : TextSelection) : Bool :=
  sel.length == 0

/-- Model of `TextSelection::include_char_at`: grow the selection leftward
when the index is below the start, grow it rightward to `index + 1` when the
index is at or beyond the end, and otherwise leave it unchanged.  The source
updates `length` with the old `start` before overwriting `start`. -/
def TextSelection.include_char_at (sel : TextSelection) (index : Nat) : TextSelection :=
  if index < sel.start then
    { sel with length := sel.length + (sel.start - index), start := index }
  else if index ≥ sel.endIdx then
    { sel with length := index - sel.start + 1 }
  else
    sel

/-- Model of the `TextField` component from `src/nodes/text_field.rs`.  The
buffer is a list of characters; the blink timer is modelled as the number of
elapsed ticks since the last reset. -/
structure TextField where
  text : List Char
  cursor_pos : Nat
  cursor_blink_timer : Nat
  cursor_blink : Bool
  active : Bool
  selection : Option TextSelection
  font : Nat
  font_size : ℚ
  font_color : UiColor
  placeholder_text : Option (List Char)
  placeholder_color : UiColor
deriving DecidableEq, Repr

/-- Model of `TextField::default()`. -/
def TextField.default : TextField where
  text := []
  cursor_pos := 0
  cursor_blink_timer := 0
  cursor_blink := true
  active := false
  selection := none
  font := 0
  font_size := 16
  font_color := .black
  placeholder_text := none
  placeholder_color := .gray

/-- Model of `TextField::reset_cursor_blink`: reset the timer and force the
cursor visible. -/
def TextField.reset_cursor_blink (f : TextField) : TextField :=
  { f with cursor_blink_timer := 0, cursor_blink := true }

/-- Model of `TextField::drain_selection`: when a selection exists, remove
the selected slice of the buffer, move the cursor to the selection start and
clear the selection; otherwise do nothing. -/
def TextField.drain_selection (f : TextField) : TextField :=
  match f.selection with
  | some selection =>
      { f with
        text := f.text.take selection.start ++ f.text.drop selection.endIdx,
        cursor_pos := selection.start,
        selection := none }
  | none => f

/-- Model of `TextField::insert_char`: drain any selection, then insert the
character at the cursor position and advance the cursor. -/
def TextField.insert_char (f : TextField) (c : Char) : TextField :=
  let f := f.drain_selection
  { f with text := f.text.insertIdx f.cursor_pos c, cursor_pos := f.cursor_pos + 1 }

/-- Model of `TextField::remove_previous_char`: remove the character before
the cursor and step the cursor back, unless the cursor is at the start. -/
def TextField.remove_previous_char (f : TextField) : TextField :=
  if f.cursor_pos > 0 then
    { f with text := f.text.eraseIdx (f.cursor_pos - 1), cursor_pos := f.cursor_pos - 1 }
  else
    f

/-- Model of `TextField::remove_next_char`: remove the character at the
cursor, unless the cursor is at the end of the buffer. -/
def TextField.remove_next_char (f : TextField) : TextField :=
  if f.cursor_pos < f.text.length then
    { f with text := f.text.eraseIdx f.cursor_pos }
  else
    f

/-- Model of the assignment `text.sections[i].value = v` used throughout
`update_text`: overwrite the value of the section at the given index. -/
def write_run : List TextSection → Nat → List Char → List TextSection
  | [], _, _ => []
  | s :: rest, 0, v => { s with value := v } :: rest
  | s :: rest, i + 1, v => s :: write_run rest i v

/-- The nine freshly styled sections allocated by
`TextField::initialize_text_sections`: a normal, cursor and selected style
arranged as three groups of pre-cursor, cursor and post-cursor runs. -/
def TextField.text_sections_template (f : TextField) : List TextSection :=
  let normal_style : TextStyle :=
    { font := f.font, font_size := f.font_size, color := f.font_color }
  let cursor_style : TextStyle :=
    { font := CURSOR_HANDLE, font_size := f.font_size, color := f.font_color }
  let selected_style : TextStyle :=
    { font := f.font, font_size := f.font_size, color := .blue }
  [ { value := [], style := normal_style },
    { value := [], style := cursor_style },
    { value := [], style := normal_style },
    { value := [], style := selected_style },
    { value := [], style := cursor_style },
    { value := [], style := selected_style },
    { value := [], style := normal_style },
    { value := [], style := cursor_style },
    { value := [], style := normal_style } ]

/-- Model of `TextField::initialize_text_sections`: do nothing when the text
already has nine sections and `force` is off, otherwise replace the sections
by the nine freshly styled ones. -/
def TextField.initialize_text_sections (f : TextField) (text : Text) (force : Bool) : Text :=
  if force = false ∧ text.sections.length = 9 then
    text
  else
    { text with sections := f.text_sections_template }

/-- Model of `TextField::clear_sections`: clear the value of every section,
keeping the styles. -/
def clear_sections (text : Text) : Text :=
  { text with sections := text.sections.map fun s => { s with value := [] } }

/-- Model of `TextField::update_text`: initialize the nine sections without
forcing, clear them, then populate the runs of the zone the cursor falls in
together with the slices of the remaining zones, following the three
selection branches and the no-selection branch of the source. -/
def TextField.update_text (f : TextField) (text : Text) : Text :=
  let text := f.initialize_text_sections text false
  let text := clear_sections text
  let cursor : List Char := if f.cursor_blink then ['|'] else []
  match f.selection with
  | some selection =>
      if f.cursor_pos < selection.start then
        let sections := write_run text.sections 0 (f.text.take f.cursor_pos)
        let sections := write_run sections 1 cursor
        let sections := write_run sections 2
          ((f.text.drop f.cursor_pos).take (selection.start - f.cursor_pos))
        let sections := write_run sections 3
          ((f.text.drop selection.start).take selection.length)
        let sections := write_run sections 6 (f.text.drop selection.endIdx)
        { text with sections := sections }
      else if f.cursor_pos < selection.endIdx then
        let sections := write_run text.sections 0 (f.text.take selection.start)
        let sections := write_run sections 3
          ((f.text.drop selection.start).take (f.cursor_pos - selection.start))
        let sections := write_run sections 4 cursor
        let sections := write_run sections 5
          ((f.text.drop f.cursor_pos).take (selection.endIdx - f.cursor_pos))
        let sections := write_run sections 6 (f.text.drop selection.endIdx)
        { text with sections := sections }
      else
        let sections := write_run text.sections 0 (f.text.take selection.start)
        let sections := write_run sections 3
          ((f.text.drop selection.start).take selection.length)
        let sections := write_run sections 6
          ((f.text.drop selection.endIdx).take (f.cursor_pos - selection.endIdx))
        let sections := write_run sections 7 cursor
        let sections := write_run sections 8 (f.text.drop f.cursor_pos)
        { text with sections := sections }
  | none =>
      let sections := write_run text.sections 0 (f.text.take f.cursor_pos)
      let sections := write_run sections 1 cursor
      let sections := write_run sections 2 (f.text.drop f.cursor_pos)
      { text with sections := sections }

/-! ## Input state machine (`handle_text_input` in `src/nodes/text_field.rs`) -/

/-- Model of `bevy::input::keyboard::KeyCode`, restricted to the keys the
handler matches on; every unmatched key code is collapsed into `other`. -/
inductive KeyCode where
  | backspace
  | delete
  | arrowLeft
  | arrowRight
  | home
  | endKey
  | enter
  | space
  | tab
  | keyA
  | other
deriving DecidableEq, Repr

/-- Model of `bevy::input::keyboard::Key` as used by the handler: either a
decoded literal character (the source takes the first character of the
delivered string) or any non-character logical key. -/
inductive Key where
  | character (c : Char)
  | nonCharacter
deriving DecidableEq, Repr

/-- Model of one `KeyboardInput` event: the physical key code, the logical
key and whether the event is a press (`ButtonState::Pressed`). -/
structure KeyboardInput where
  key_code : KeyCode
  logical_key : Key
  pressed : Bool
deriving DecidableEq, Repr

/-- Model of the `match ev.key_code` block of `handle_text_input`: returns
the mutated field together with the value of the `dirty` flag after the
match.  Every branch follows the source, including setting `dirty` even when
the branch body left the field unchanged. -/
def handle_key_code (ctl_key shift_key : Bool) (key : KeyCode) (f : TextField) :
    TextField × Bool :=
  match key with
  | .backspace =>
      (if f.selection.isSome then f.drain_selection else f.remove_previous_char, true)
  | .delete =>
      (if f.selection.isSome then f.drain_selection else f.remove_next_char, true)
  | .arrowLeft =>
      let f :=
        if f.cursor_pos > 0 then
          let f := { f with cursor_pos := f.cursor_pos - 1 }
          if shift_key then
            match f.selection with
            | some selection =>
                { f with selection := some (selection.include_char_at f.cursor_pos) }
            | none =>
                { f with selection := some { start := f.cursor_pos, length := 1 } }
          else f
        else f
      (f, true)
  | .arrowRight =>
      let f :=
        if f.cursor_pos < f.text.length then
          let f := { f with cursor_pos := f.cursor_pos + 1 }
          if shift_key then
            match f.selection with
            | some selection =>
                { f with selection := some (selection.include_char_at f.cursor_pos) }
            | none =>
                { f with selection := some { start := f.cursor_pos - 1, length := 1 } }
          else f
        else f
      (f, true)
  | .home =>
      let f :=
        if shift_key then
          match f.selection with
          | some selection =>
              { f with selection := some (selection.include_char_at 0) }
          | none =>
              { f with selection := some { start := 0, length := f.cursor_pos } }
        else f
      ({ f with cursor_pos := 0 }, true)
  | .endKey =>
      let f :=
        if shift_key then
          match f.selection with
          | some selection =>
              { f with selection := some (selection.include_char_at f.text.length) }
          | none =>
              { f with selection := some { start := f.cursor_pos, length := f.text.length - f.cursor_pos } }
        else f
      ({ f with cursor_pos := f.text.length }, true)
  | .enter =>
      (f.drain_selection.insert_char '\n', true)
  | .space =>
      (f.drain_selection.insert_char ' ', true)
  | .tab =>
      (f.drain_selection.insert_char '\t', true)
  | .keyA =>
      if ctl_key then
        ({ f with selection := some { start := 0, length := f.text.length } }, true)
      else
        (f, false)
  | .other =>
      (f, false)

/-- Model of the body of `handle_text_input` for one keyboard event and one
text field: inactive fields and non-press events are skipped; otherwise the
key-code match runs, then the `Key::Character` fall-through, and finally a
dirty step resets the cursor blink and re-runs `update_text`. -/
def handle_text_input (ctl_key shift_key : Bool) (ev : KeyboardInput)
    (f : TextField) (text : Text) : TextField × Text :=
  if f.active = false then
    (f, text)
  else if ev.pressed = false then
    (f, text)
  else
    let fd := handle_key_code ctl_key shift_key ev.key_code f
    let fd :=
      match ev.logical_key with
      | .character c => (fd.1.drain_selection.insert_char c, true)
      | .nonCharacter => fd
    if fd.2 then
      let f := fd.1.reset_cursor_blink
      (f, f.update_text text)
    else
      (fd.1, text)

/-! ## Node-tree compiler (`src/nodes/mod.rs`, `src/builders/bundle.rs` and
the data blocks of `src/blocks/`) -/

/-- Model of the asset server at the interface boundary: a pure lookup from
path strings to opaque handles. -/
def AssetServer : Type := String → Nat

/-- Model of `NodeBundleType` from `src/builders/bundle.rs`. -/
inductive NodeBundleType where
  | node
  | image
  | button
  | text
deriving DecidableEq, Repr

/-- Model of `bevy::ui::TextureSlicer` at the interface boundary: the crate
only carries it through to the host, so its payload is kept opaque. -/
structure TextureSlicer where
  max_corner_scale : ℚ
deriving DecidableEq, Repr

/-- Model of `NodeTextureScaling` from `src/blocks/background.rs`. -/
inductive NodeTextureScaling where
  | stretched
  | tiled (tile_x tile_y : Bool) (stretch_value : ℚ)
  | sliced (slicer : TextureSlicer)
deriving DecidableEq, Repr

/-- Model of `NodeBackground` from `src/blocks/background.rs`. -/
inductive NodeBackground where
  | none
  | color (color : UiColor)
  | image (img : String) (tint : UiColor) (tex_scaling : NodeTextureScaling)
deriving DecidableEq, Repr

/-- Model of `NodePosition` from `src/blocks/position.rs`. -/
inductive NodePosition where
  | relative (width height : Val)
  | absolute (x y width height : Val)
  | anchored (anchor : AnchorPoint) (width height margin : Val)
deriving DecidableEq, Repr

/-- Model of `ImageScaleMode` as inserted by the background block. -/
inductive ImageScaleMode where
  | tiled (tile_x tile_y : Bool) (stretch_value : ℚ)
  | sliced (slicer : TextureSlicer)
deriving DecidableEq, Repr

/-- Model of the component bundles the blocks insert through the deferred
component writers of `NodeBundleBuilder::insert`. -/
inductive Component where
  | background_color (c : UiColor)
  | ui_image (handle : Nat)
  | image_scale_mode (m : ImageScaleMode)
  | text_component (t : Text)
  | text_field_component (f : TextField)
deriving DecidableEq, Repr

/-- Model of `NodeTextSection` from `src/blocks/text.rs`. -/
structure NodeTextSection where
  text : List Char
  font : String
  text_size : ℚ
  color : UiColor
deriving DecidableEq, Repr

/-- Model of `NodeText` from `src/blocks/text.rs`. -/
structure NodeText where
  anchor_point : AnchorPoint
  sections : List NodeTextSection
  line_break : BreakLineOn
deriving DecidableEq, Repr

/-- Model of `NodeTextField` from `src/blocks/text_field.rs`. -/
structure NodeTextField where
  font : String
  font_size : ℚ
  color : UiColor
  max_chars : Option Nat
  single_line : Bool
  placeholder : Option (List Char)
  placeholder_color : UiColor
  anchor_point : AnchorPoint
  line_break : BreakLineOn
deriving DecidableEq, Repr

/-- Model of `UiNode` from `src/nodes/mod.rs`; the `NodeChildren` block is
its wrapped list of child nodes. -/
inductive UiNode where
  | canvas (children : List UiNode)
  | panel (background : NodeBackground) (position : NodePosition) (children : List UiNode)
  | text (background : NodeBackground) (position : NodePosition) (textBlock : NodeText)
  | textField (background : NodeBackground) (position : NodePosition) (text_field : NodeTextField)

/-- Model of `NodeBundleBuilder` from `src/builders/bundle.rs`: the deferred
accumulator every block writes into before the element is spawned. -/
structure NodeBundleBuilder where
  parent : Option Nat
  style : Style
  bundle : NodeBundleType
  components : List Component
  children : List UiNode

/-- Model of `NodeBundleBuilder::default()`. -/
def NodeBundleBuilder.default : NodeBundleBuilder where
  parent := none
  style := Style.default
  bundle := .node
  components := []
  children := []

/-- Model of `NodeBundleBuilder::insert`: append one deferred component
writer. -/
def NodeBundleBuilder.insert (b : NodeBundleBuilder) (c : Component) : NodeBundleBuilder :=
  { b with components := b.components ++ [c] }

/-- Model of `NodeBundleBuilder::bundle_type`. -/
def NodeBundleBuilder.bundle_type (b : NodeBundleBuilder) (t : NodeBundleType) : NodeBundleBuilder :=
  { b with bundle := t }

/-- Model of `NodeBundleBuilder::set_parent`. -/
def NodeBundleBuilder.set_parent (b : NodeBundleBuilder) (parent : Option Nat) : NodeBundleBuilder :=
  { b with parent := parent }

/-- Model of `NodeBundleBuilder::set_children`. -/
def NodeBundleBuilder.set_children (b : NodeBundleBuilder) (children : List UiNode) : NodeBundleBuilder :=
  { b with children := children }

/-- Model of `NodePosition::apply_to_node` from `src/blocks/position.rs`. -/
def NodePosition.apply_to_node (p : NodePosition) (node : NodeBundleBuilder)
    (_assets : AssetServer) : NodeBundleBuilder :=
  match p with
  | .relative width height =>
      { node with style := { node.style with width := width, height := height } }
  | .absolute x y width height =>
      { node with style :=
          { node.style with position_type := .absolute, left := x, top := y,
                            width := width, height := height } }
  | .anchored anchor width height margin =>
      let style := set_anchor_point node.style anchor margin
      { node with style := { style with width := width, height := height } }

/-- Model of `NodeBackground::apply_to_node` from `src/blocks/background.rs`. -/
def NodeBackground.apply_to_node (bg : NodeBackground) (node : NodeBundleBuilder)
    (assets : AssetServer) : NodeBundleBuilder :=
  match bg with
  | .none => node
  | .color c => node.insert (.background_color c)
  | .image img tint tex_scaling =>
      let node := node.bundle_type .image
      let node := node.insert (.ui_image (assets img))
      let node := node.insert (.background_color tint)
      match tex_scaling with
      | .stretched => node
      | .tiled tile_x tile_y stretch_value =>
          node.insert (.image_scale_mode (.tiled tile_x tile_y stretch_value))
      | .sliced slicer =>
          node.insert (.image_scale_mode (.sliced slicer))

/-- The `justify` value both content blocks derive from an anchor point. -/
def justify_of_anchor : AnchorPoint → JustifyText
  | .topLeft => .left
  | .topCenter => .center
  | .topRight => .right
  | .centerLeft => .left
  | .center => .center
  | .centerRight => .right
  | .bottomLeft => .left
  | .bottomCenter => .center
  | .bottomRight => .right

/-- The `(AlignContent, JustifyContent)` pair both content blocks derive
from an anchor point in `apply_to_parent`. -/
def content_alignment_of_anchor : AnchorPoint → AlignContent × JustifyContent
  | .topLeft => (.flexStart, .start)
  | .topCenter => (.flexStart, .center)
  | .topRight => (.flexStart, .stop)
  | .centerLeft => (.center, .start)
  | .center => (.center, .center)
  | .centerRight => (.center, .stop)
  | .bottomLeft => (.flexEnd, .start)
  | .bottomCenter => (.flexEnd, .center)
  | .bottomRight => (.flexEnd, .stop)

/-- The `(AlignItems, JustifyItems)` pair both content blocks derive from an
anchor point in `apply_to_parent`. -/
def item_alignment_of_anchor : AnchorPoint → AlignItems × JustifyItems
  | .topLeft => (.flexStart, .start)
  | .topCenter => (.flexStart, .center)
  | .topRight => (.flexStart, .stop)
  | .centerLeft => (.center, .start)
  | .center => (.center, .center)
  | .centerRight => (.center, .stop)
  | .bottomLeft => (.flexEnd, .start)
  | .bottomCenter => (.flexEnd, .center)
  | .bottomRight => (.flexEnd, .stop)

/-- Model of `NodeText::apply_to_node` from `src/blocks/text.rs`: select the
text bundle type and insert a `Text` component built from the sections, the
justification derived from the anchor point and the line-break policy. -/
def NodeText.apply_to_node (tb : NodeText) (node : NodeBundleBuilder)
    (assets : AssetServer) : NodeBundleBuilder :=
  let node := node.bundle_type .text
  let text : Text :=
    { sections := tb.sections.map fun sec =>
        { value := sec.text,
          style := { font := assets sec.font, font_size := sec.text_size,
                     color := sec.color } },
      justify := justify_of_anchor tb.anchor_point,
      linebreak_behavior := tb.line_break }
  node.insert (.text_component text)

/-- Model of `NodeText::apply_to_parent` from `src/blocks/text.rs`: write
the content and item alignment derived from the anchor point into the
pending parent builder. -/
def NodeText.apply_to_parent (tb : NodeText) (node : NodeBundleBuilder)
    (_assets : AssetServer) : NodeBundleBuilder :=
  let content_alignment := content_alignment_of_anchor tb.anchor_point
  let item_alignment := item_alignment_of_anchor tb.anchor_point
  { node with style :=
      { node.style with
          align_content := content_alignment.1, justify_content := content_alignment.2,
          align_items := item_alignment.1, justify_items := item_alignment.2 } }

/-- Model of `NodeTextField::apply_to_node` from `src/blocks/text_field.rs`:
select the text bundle type, insert an empty `Text` component with the
justification derived from the anchor point, and insert the `TextField`
run-time component. -/
def NodeTextField.apply_to_node (tf : NodeTextField) (node : NodeBundleBuilder)
    (assets : AssetServer) : NodeBundleBuilder :=
  let node := node.bundle_type .text
  let node := node.insert (.text_component
    { Text.default with
        linebreak_behavior := tf.line_break,
        justify := justify_of_anchor tf.anchor_point })
  node.insert (.text_field_component
    { TextField.default with
        font := assets tf.font,
        font_size := tf.font_size,
        font_color := tf.color,
        placeholder_text := tf.placeholder,
        placeholder_color := tf.placeholder_color })

/-- Model of `NodeTextField::apply_to_parent` from
`src/blocks/text_field.rs`: identical alignment writes as the text block. -/
def NodeTextField.apply_to_parent (tf : NodeTextField) (node : NodeBundleBuilder)
    (_assets : AssetServer) : NodeBundleBuilder :=
  let content_alignment := content_alignment_of_anchor tf.anchor_point
  let item_alignment := item_alignment_of_anchor tf.anchor_point
  { node with style :=
      { node.style with
          align_content := content_alignment.1, justify_content := content_alignment.2,
          align_items := item_alignment.1, justify_items := item_alignment.2 } }

/-- Model of `NodeChildren::apply_to_node` from `src/blocks/children.rs`. -/
def NodeChildren.apply_to_node (children : List UiNode) (node : NodeBundleBuilder)
    (_assets : AssetServer) : NodeBundleBuilder :=
  node.set_children children

/-- One spawned element of the host scene graph: the entity id, the parent
link, the bundle kind, the attached style and the deferred components that
were applied to it, in order. -/
structure Element where
  id : Nat
  parent : Option Nat
  bundle : NodeBundleType
  style : Style
  components : List Component

/-- The element spawned by the first half of `NodeBundleBuilder::build`:
spawn the bundle, attach the style, link the parent and apply the deferred
component writers in order.  Child recursion is performed by the caller on
the same `children` list the builder carries. -/
def NodeBundleBuilder.spawn (b : NodeBundleBuilder) (fresh : Nat) : Element :=
  { id := fresh, parent := b.parent, bundle := b.bundle, style := b.style,
    components := b.components }

mutual

/-- Model of `UiNode::build_node`: compile one node description, spawning
its elements depth first.  Entity ids are handed out sequentially starting
at `fresh`; the result is the list of spawned elements in spawn order
together with the next fresh id.  Each arm mirrors the corresponding match
arm of the source, including the two-element split for text-bearing nodes
and the recursion into children performed by `NodeBundleBuilder::build`. -/
def UiNode.build_node : UiNode → Option Nat → AssetServer → Nat → List Element × Nat
  | .canvas children, parent, assets, fresh =>
      let node := NodeBundleBuilder.default.set_parent parent
      let node := { node with style :=
          { node.style with top := .px 0, left := .px 0,
                            width := .percent 100, height := .percent 100 } }
      let node := NodeChildren.apply_to_node children node assets
      let elem := node.spawn fresh
      let rest := UiNode.build_node_list children (some fresh) assets (fresh + 1)
      (elem :: rest.1, rest.2)
  | .panel background position children, parent, assets, fresh =>
      let node := NodeBundleBuilder.default.set_parent parent
      let node := background.apply_to_node node assets
      let node := position.apply_to_node node assets
      let node := NodeChildren.apply_to_node children node assets
      let elem := node.spawn fresh
      let rest := UiNode.build_node_list children (some fresh) assets (fresh + 1)
      (elem :: rest.1, rest.2)
  | .text background position textBlock, parent, assets, fresh =>
      let container_node := NodeBundleBuilder.default.set_parent parent
      let container_node := background.apply_to_node container_node assets
      let container_node := position.apply_to_node container_node assets
      let container_node := textBlock.apply_to_parent container_node assets
      let container := container_node.spawn fresh
      let text_node := NodeBundleBuilder.default.set_parent (some container.id)
      let text_node := textBlock.apply_to_node text_node assets
      let content := text_node.spawn (fresh + 1)
      ([container, content], fresh + 2)
  | .textField background position text_field, parent, assets, fresh =>
      let container_node := NodeBundleBuilder.default.set_parent parent
      let container_node := background.apply_to_node container_node assets
      let container_node := position.apply_to_node container_node assets
      let container_node := text_field.apply_to_parent container_node assets
      let container := container_node.spawn fresh
      let field_node := NodeBundleBuilder.default.set_parent (some container.id)
      let field_node := text_field.apply_to_node field_node assets
      let content := field_node.spawn (fresh + 1)
      ([container, content], fresh + 2)

/-- The child recursion loop at the end of `NodeBundleBuilder::build`: build
every child in order under the given parent, threading the fresh id. -/
def UiNode.build_node_list : List UiNode → Option Nat → AssetServer → Nat → List Element × Nat
  | [], _, _, fresh => ([], fresh)
  | n :: rest, parent, assets, fresh =>
      let r := UiNode.build_node n parent assets fresh
      let rs := UiNode.build_node_list rest parent assets r.2
      (r.1 ++ rs.1, rs.2)

end

/-! ## Auxiliary definitions for the claims: spec-side projections,
claim-side classifications and concrete example states -/

/-- Concrete state used by the C7 witness: buffer abcdef with the slice bcd
selected. -/
def drain_example_field : TextField :=
  { TextField.default with text := ['a', 'b', 'c', 'd', 'e', 'f'], cursor_pos := 2,
                           selection := some { start := 1, length := 3 } }

/-- Concrete active field holding the buffer text, used by the C2
counterexample and witness. -/
def ctrl_a_field : TextField :=
  { TextField.default with active := true, text := ['t', 'e', 'x', 't'], cursor_pos := 4 }

/-- Concrete starting field for the C1 violation: a valid state with buffer
ab and the cursor at the end. -/
def bounds_field : TextField :=
  { TextField.default with active := true, text := ['a', 'b'], cursor_pos := 2 }

/-- First handler step of the C1 violation: Ctrl+A produces the valid
whole-buffer selection of length 2. -/
def bounds_step1 : TextField × Text :=
  handle_text_input true false
    { key_code := .keyA, logical_key := .nonCharacter, pressed := true }
    bounds_field Text.default

/-- Second handler step of the C1 violation: Shift+End runs
`include_char_at(len)` on the existing selection. -/
def bounds_step2 : TextField × Text :=
  handle_text_input false true
    { key_code := .endKey, logical_key := .nonCharacter, pressed := true }
    bounds_step1.1 bounds_step1.2

/-- The branch-level dirty flag of `handle_text_input`: every handled key
sets `dirty` unconditionally, KeyA only together with Ctrl, and unmatched
keys never do. -/
def branch_dirty (key : KeyCode) (ctl_key : Bool) : Bool :=
  match key with
  | .keyA => ctl_key
  | .other => false
  | _ => true

/-- Concrete active field for the C8 counterexample: empty buffer, cursor at
0, a non-reset blink timer. -/
def dirty_cx_field : TextField :=
  { TextField.default with active := true, cursor_blink_timer := 7, cursor_blink := false }

/-- The anchor points whose horizontal axis is centered. -/
def horizontally_centered : AnchorPoint → Bool
  | .topCenter => true
  | .bottomCenter => true
  | .center => true
  | _ => false

/-- The anchor points whose vertical axis is centered. -/
def vertically_centered : AnchorPoint → Bool
  | .centerLeft => true
  | .centerRight => true
  | .center => true
  | _ => false

/-- The anchor points that pin the left edge of a non-centered horizontal
axis. -/
def pins_left : AnchorPoint → Bool
  | .topLeft => true
  | .centerLeft => true
  | .bottomLeft => true
  | _ => false

/-- The anchor points that pin the right edge of a non-centered horizontal
axis. -/
def pins_right : AnchorPoint → Bool
  | .topRight => true
  | .centerRight => true
  | .bottomRight => true
  | _ => false

/-- The anchor points that pin the top edge of a non-centered vertical
axis. -/
def pins_top : AnchorPoint → Bool
  | .topLeft => true
  | .topCenter => true
  | .topRight => true
  | _ => false

/-- The anchor points that pin the bottom edge of a non-centered vertical
axis. -/
def pins_bottom : AnchorPoint → Bool
  | .bottomLeft => true
  | .bottomCenter => true
  | .bottomRight => true
  | _ => false

/-- The cursor-glyph run content: the blink glyph when the blink flag is on,
empty when it is off. -/
def cursor_glyph (blink : Bool) : List Char :=
  if blink then ['|'] else []

/-- The nine run values demanded by the spec of the Text Run Projector, with
the amended zone classification: the cursor zone is chosen by classifying
the cursor strictly before the selection start (runs 0, 1, 2), at the start
or inside the selection (runs 3, 4, 5), or at or after the selection end
(runs 6, 7, 8); with no selection only runs 0, 1, 2 are used.  The three
runs of the zone hold the pre-cursor slice, the cursor glyph and the
post-cursor slice, the other zones keep their unselected and selected
buffer slices, and every remaining run is empty. -/
def projected_runs (f : TextField) : List (List Char) :=
  let cursor := cursor_glyph f.cursor_blink
  match f.selection with
  | some sel =>
      if f.cursor_pos < sel.start then
        [f.text.take f.cursor_pos, cursor,
         (f.text.drop f.cursor_pos).take (sel.start - f.cursor_pos),
         (f.text.drop sel.start).take sel.length, [], [],
         f.text.drop sel.endIdx, [], []]
      else if f.cursor_pos < sel.endIdx then
        [f.text.take sel.start, [], [],
         (f.text.drop sel.start).take (f.cursor_pos - sel.start), cursor,
         (f.text.drop f.cursor_pos).take (sel.endIdx - f.cursor_pos),
         f.text.drop sel.endIdx, [], []]
      else
        [f.text.take sel.start, [], [],
         (f.text.drop sel.start).take sel.length, [], [],
         (f.text.drop sel.endIdx).take (f.cursor_pos - sel.endIdx), cursor,
         f.text.drop f.cursor_pos]
  | none =>
      [f.text.take f.cursor_pos, cursor, f.text.drop f.cursor_pos, [], [], [], [], [], []]

/-- The nine run values under the zone classification exactly as the claim
words it, with the first zone taken as before-or-at the selection start.
Used only to exhibit the counterexample against the original claim. -/
def claimed_runs (f : TextField) : List (List Char) :=
  let cursor := cursor_glyph f.cursor_blink
  match f.selection with
  | some sel =>
      if f.cursor_pos ≤ sel.start then
        [f.text.take f.cursor_pos, cursor,
         (f.text.drop f.cursor_pos).take (sel.start - f.cursor_pos),
         (f.text.drop sel.start).take sel.length, [], [],
         f.text.drop sel.endIdx, [], []]
      else if f.cursor_pos < sel.endIdx then
        [f.text.take sel.start, [], [],
         (f.text.drop sel.start).take (f.cursor_pos - sel.start), cursor,
         (f.text.drop f.cursor_pos).take (sel.endIdx - f.cursor_pos),
         f.text.drop sel.endIdx, [], []]
      else
        [f.text.take sel.start, [], [],
         (f.text.drop sel.start).take sel.length, [], [],
         (f.text.drop sel.endIdx).take (f.cursor_pos - sel.endIdx), cursor,
         f.text.drop f.cursor_pos]
  | none =>
      [f.text.take f.cursor_pos, cursor, f.text.drop f.cursor_pos, [], [], [], [], [], []]

/-- Concrete state exhibiting the zone boundary: the cursor sits exactly at
the start of a non-empty selection. -/
def zone_cx_field : TextField :=
  { TextField.default with text := ['a', 'b'], cursor_pos := 0,
                           selection := some { start := 0, length := 1 } }

/-- Concrete state of the C3 scenario: buffer hi, cursor 1, blink on, no
selection. -/
def hi_field : TextField :=
  { TextField.default with text := ['h', 'i'], cursor_pos := 1 }

/-- Concrete text with nine sections for the C9 witness. -/
def nine_section_text : Text :=
  { sections := TextField.default.text_sections_template, justify := .left,
    linebreak_behavior := .wordBoundary }

mutual

/-- The element count demanded by the spec: text-bearing nodes always
compile to exactly two elements, containers to one element plus one subtree
per child, recursively. -/
def count_elements : UiNode → Nat
  | .canvas children => 1 + count_elements_list children
  | .panel _ _ children => 1 + count_elements_list children
  | .text _ _ _ => 2
  | .textField _ _ _ => 2

/-- Sum of the spec element counts over a list of sibling nodes. -/
def count_elements_list : List UiNode → Nat
  | [] => 0
  | n :: rest => count_elements n + count_elements_list rest

end

/-! ## Theorems -/

/-- C10: `include_char_at` is an extension operator.  The new half-open
range contains the old range and the included index, the length never
decreases, and an index already inside the selection leaves it unchanged. -/
theorem include_char_at_extends (sel : TextSelection) (i : Nat) :
    (sel.include_char_at i).start ≤ sel.start ∧
    sel.endIdx ≤ (sel.include_char_at i).endIdx ∧
    (sel.include_char_at i).start ≤ i ∧
    i < (sel.include_char_at i).endIdx ∧
    sel.length ≤ (sel.include_char_at i).length ∧
    (sel.start ≤ i → i < sel.endIdx → sel.include_char_at i = sel) := by
  simp only [TextSelection.include_char_at, TextSelection.endIdx]
  split_ifs with h1 h2 <;>
    refine ⟨?_, ?_, ?_, ?_, ?_, ?_⟩ <;>
      first
        | (dsimp only; omega)
        | trivial
        | (intro hle hlt; dsimp only; omega)
        | (intro hle hlt; trivial)

/-- Witness for C10 at a concrete selection and index: index 2 lies inside
the selection from 1 of length 2, so the selection is unchanged. -/
theorem include_char_at_extends_witness :
    TextSelection.include_char_at { start := 1, length := 2 } 2 = { start := 1, length := 2 } :=
  (include_char_at_extends { start := 1, length := 2 } 2).2.2.2.2.2 (by decide) (by decide)

/-- C6: inserting a character with no selection active and then removing the
previous character restores the buffer and cursor exactly. -/
theorem insert_remove_round_trip (f : TextField) (c : Char)
    (hsel : f.selection = none) (hcur : f.cursor_pos ≤ f.text.length) :
    (f.insert_char c).remove_previous_char = f := by
  simp only [TextField.insert_char, TextField.drain_selection, hsel,
    TextField.remove_previous_char]
  simp [List.eraseIdx_insertIdx]
  rw [← hsel]

/-- Witness for C6: inserting then backspacing on a concrete state is the
identity. -/
theorem insert_remove_round_trip_witness :
    (TextField.insert_char
      { TextField.default with text := ['h', 'i'], cursor_pos := 1 } 'x').remove_previous_char =
      { TextField.default with text := ['h', 'i'], cursor_pos := 1 } :=
  insert_remove_round_trip { TextField.default with text := ['h', 'i'], cursor_pos := 1 } 'x'
    (by decide) (by decide)

/-- C7: `drain_selection` is a no-op when no selection exists; with a valid
selection it removes the selected slice, moves the cursor to the selection
start and clears the selection. -/
theorem drain_selection_spec (f : TextField) :
    (f.selection = none → f.drain_selection = f) ∧
    (∀ sel, f.selection = some sel → sel.endIdx ≤ f.text.length →
      f.drain_selection.text = f.text.take sel.start ++ f.text.drop (sel.start + sel.length) ∧
      f.drain_selection.cursor_pos = sel.start ∧
      f.drain_selection.selection = none ∧
      f.drain_selection.text.length = f.text.length - sel.length) := by
  constructor
  · intro h
    simp [TextField.drain_selection, h]
  · intro sel h hv
    have hd : f.drain_selection =
        { f with text := f.text.take sel.start ++ f.text.drop sel.endIdx,
                 cursor_pos := sel.start, selection := none } := by
      simp [TextField.drain_selection, h]
    rw [hd]
    refine ⟨rfl, rfl, rfl, ?_⟩
    simp only [List.length_append, List.length_take, List.length_drop]
    simp only [TextSelection.endIdx] at hv ⊢
    omega

/-- Witness for C7 at a concrete state: draining the selection of length 3
starting at 1 out of the buffer abcdef leaves aef. -/
theorem drain_selection_spec_witness :
    (TextField.drain_selection drain_example_field).text = ['a', 'e', 'f'] := by
  have h := (drain_selection_spec drain_example_field).2
    { start := 1, length := 3 } rfl (by decide)
  exact h.1.trans (by decide)

/-- Counterexample for C2: a Ctrl+A key-press event whose logical key also
carries the literal character a (which is what keyboard backends deliver for
Ctrl+A) does not leave the buffer unchanged with a full selection — the
character fall-through of the handler drains the freshly created
whole-buffer selection and inserts the character, leaving buffer a and no
selection. -/
theorem ctrl_a_with_char_payload_cx :
    ¬ (((handle_text_input true false
          { key_code := .keyA, logical_key := .character 'a', pressed := true }
          ctrl_a_field Text.default).1.text = ['t', 'e', 'x', 't'] ∧
        (handle_text_input true false
          { key_code := .keyA, logical_key := .character 'a', pressed := true }
          ctrl_a_field Text.default).1.selection = some { start := 0, length := 4 })) := by
  decide

/-- C2 (amended): for an active field, a pressed Ctrl+A event that carries
no literal-character payload selects the whole buffer, replacing any
existing selection, and leaves the buffer and cursor unchanged. -/
theorem ctrl_a_selects_all (shift_key : Bool) (ev : KeyboardInput) (f : TextField) (t : Text)
    (ha : f.active = true) (hk : ev.key_code = .keyA) (hl : ev.logical_key = .nonCharacter)
    (hp : ev.pressed = true) :
    (handle_text_input true shift_key ev f t).1.selection =
      some { start := 0, length := f.text.length } ∧
    (handle_text_input true shift_key ev f t).1.text = f.text ∧
    (handle_text_input true shift_key ev f t).1.cursor_pos = f.cursor_pos := by
  simp [handle_text_input, ha, hp, hk, hl, handle_key_code, TextField.reset_cursor_blink]

/-- Witness for C2 (amended): Ctrl+A without a character payload on buffer
text yields the selection from 0 of length 4. -/
theorem ctrl_a_selects_all_witness :
    (handle_text_input true false
      { key_code := .keyA, logical_key := .nonCharacter, pressed := true }
      ctrl_a_field Text.default).1.selection = some { start := 0, length := 4 } := by
  have h := ctrl_a_selects_all false
    { key_code := .keyA, logical_key := .nonCharacter, pressed := true }
    ctrl_a_field Text.default rfl rfl rfl rfl
  exact h.1.trans (by decide)

/-- C1 fails on the code: from the valid state (buffer ab, Ctrl+A selection
start 0 length 2), the Shift+End branch calls `include_char_at(2)`, whose
rightward rule sets the length to `len - start + 1 = 3`, so the selection
end becomes 3 while the buffer length stays 2 — the bounds invariant
`start + length ≤ len` is violated by a reachable handler step (and a
subsequent `drain_selection` would slice past the end of the buffer). -/
theorem shift_end_breaks_selection_bounds :
    bounds_step1.1.selection = some { start := 0, length := 2 } ∧
    bounds_step2.1.selection = some { start := 0, length := 3 } ∧
    bounds_step2.1.text.length = 2 ∧
    ¬ (0 + 3 ≤ 2) := by
  refine ⟨by decide, by decide, by decide, by decide⟩

/-- Counterexample for C8: ArrowLeft with the cursor already at 0 leaves the
editing model (buffer, cursor, selection) unchanged, yet the branch still
marks the state dirty, so the cursor blink is reset (timer 7 becomes 0 and
the cursor is forced visible). -/
theorem arrow_left_noop_still_dirty_cx :
    ((handle_text_input false false
        { key_code := .arrowLeft, logical_key := .nonCharacter, pressed := true }
        dirty_cx_field Text.default).1.text = dirty_cx_field.text ∧
      (handle_text_input false false
        { key_code := .arrowLeft, logical_key := .nonCharacter, pressed := true }
        dirty_cx_field Text.default).1.cursor_pos = dirty_cx_field.cursor_pos ∧
      (handle_text_input false false
        { key_code := .arrowLeft, logical_key := .nonCharacter, pressed := true }
        dirty_cx_field Text.default).1.selection = dirty_cx_field.selection) ∧
    dirty_cx_field.cursor_blink_timer = 7 ∧
    (handle_text_input false false
      { key_code := .arrowLeft, logical_key := .nonCharacter, pressed := true }
      dirty_cx_field Text.default).1.cursor_blink_timer = 0 := by
  refine ⟨⟨by decide, by decide, by decide⟩, by decide, by decide⟩

/-- C8 (amended): for a pressed event on an active field, the handler
resets the cursor blink and re-runs the text projector exactly when the
key-code branch taken is a dirty one (every handled key; KeyA only with
Ctrl) or the event carries a literal character — independently of whether
the branch actually changed the editing model; when no dirty branch runs,
the field and the rendered text are returned untouched. -/
theorem handle_text_input_dirty (ctl_key shift_key : Bool) (ev : KeyboardInput)
    (f : TextField) (t : Text) (ha : f.active = true) (hp : ev.pressed = true) :
    ((branch_dirty ev.key_code ctl_key = false ∧ ev.logical_key = Key.nonCharacter) →
        handle_text_input ctl_key shift_key ev f t = (f, t)) ∧
    ((branch_dirty ev.key_code ctl_key = true ∨ ev.logical_key ≠ Key.nonCharacter) →
        (handle_text_input ctl_key shift_key ev f t).1.cursor_blink_timer = 0 ∧
        (handle_text_input ctl_key shift_key ev f t).1.cursor_blink = true ∧
        (handle_text_input ctl_key shift_key ev f t).2 =
          (handle_text_input ctl_key shift_key ev f t).1.update_text t) := by
  obtain ⟨kc, lk, pr⟩ := ev
  simp only at hp
  subst hp
  constructor
  · rintro ⟨hd, hl⟩
    simp only at hl
    subst hl
    cases kc <;> cases ctl_key <;>
      simp_all [handle_text_input, handle_key_code, branch_dirty, ha]
  · intro hd
    cases lk with
    | character c =>
        cases kc <;> cases ctl_key <;>
          simp_all [handle_text_input, handle_key_code, branch_dirty,
            TextField.reset_cursor_blink, ha]
    | nonCharacter =>
        simp only [branch_dirty, ne_eq, not_true_eq_false, or_false] at hd
        cases kc <;> cases ctl_key <;>
          simp_all [handle_text_input, handle_key_code, branch_dirty,
            TextField.reset_cursor_blink, ha]

/-- Witness for C8 (amended) at a concrete input: a pressed Backspace event
on an active field resets the blink timer to 0. -/
theorem handle_text_input_dirty_witness :
    (handle_text_input false false
      { key_code := .backspace, logical_key := .nonCharacter, pressed := true }
      ctrl_a_field Text.default).1.cursor_blink_timer = 0 :=
  ((handle_text_input_dirty false false
      { key_code := .backspace, logical_key := .nonCharacter, pressed := true }
      ctrl_a_field Text.default rfl rfl).2 (Or.inl rfl)).1

/-- C4: applying an anchored position block yields absolute positioning with
the pinned-edge pattern of the spec.  Each centered axis pins both of its
edges to 0 pixels and forces the margin on both of those edges to automatic;
each non-centered axis pins one edge to 0 pixels with margin equal to the
given value there, and leaves its free edge automatic. -/
theorem anchored_resolution (point : AnchorPoint) (w h m : Val) (b : NodeBundleBuilder)
    (assets : AssetServer) :
    let s := ((NodePosition.anchored point w h m).apply_to_node b assets).style
    s.position_type = .absolute ∧
    (horizontally_centered point = true →
      s.left = .px 0 ∧ s.right = .px 0 ∧ s.margin.left = .auto ∧ s.margin.right = .auto) ∧
    (pins_left point = true → s.left = .px 0 ∧ s.right = .auto ∧ s.margin.left = m) ∧
    (pins_right point = true → s.right = .px 0 ∧ s.left = .auto ∧ s.margin.right = m) ∧
    (vertically_centered point = true →
      s.top = .px 0 ∧ s.bottom = .px 0 ∧ s.margin.top = .auto ∧ s.margin.bottom = .auto) ∧
    (pins_top point = true → s.top = .px 0 ∧ s.bottom = .auto ∧ s.margin.top = m) ∧
    (pins_bottom point = true → s.bottom = .px 0 ∧ s.top = .auto ∧ s.margin.bottom = m) := by
  cases point <;>
    simp [NodePosition.apply_to_node, set_anchor_point, center_margin_hor, center_margin_ver,
      center_margin, UiRect.all, horizontally_centered, vertically_centered,
      pins_left, pins_right, pins_top, pins_bottom]

/-- Witness for C4 at a concrete anchor: for TopCenter with margin 5 pixels
the horizontal margin ends automatic on the left edge. -/
theorem anchored_resolution_witness :
    ((NodePosition.anchored .topCenter (.px 1) (.px 2) (.px 5)).apply_to_node
      NodeBundleBuilder.default (fun _ => 0)).style.margin.left = Val.auto :=
  ((anchored_resolution .topCenter (.px 1) (.px 2) (.px 5)
      NodeBundleBuilder.default (fun _ => 0)).2.1 rfl).2.2.1

/-- Overwriting one run value leaves every run style unchanged. -/
theorem write_run_map_style (ss : List TextSection) (i : Nat) (v : List Char) :
    (write_run ss i v).map (fun s => s.style) = ss.map (fun s => s.style) := by
  induction ss generalizing i with
  | nil => rfl
  | cons s rest ih => cases i <;> simp [write_run, ih]

/-- Overwriting one run value preserves the number of runs. -/
theorem write_run_length (ss : List TextSection) (i : Nat) (v : List Char) :
    (write_run ss i v).length = ss.length := by
  induction ss generalizing i with
  | nil => rfl
  | cons s rest ih => cases i <;> simp [write_run, ih]

/-- Overwriting one run value acts as `List.set` on the list of values. -/
theorem write_run_map_value (ss : List TextSection) (i : Nat) (v : List Char) :
    (write_run ss i v).map (fun s => s.value) = (ss.map fun s => s.value).set i v := by
  induction ss generalizing i with
  | nil => simp [write_run]
  | cons s rest ih => cases i <;> simp [write_run, ih]

/-- Clearing the sections replaces every run value by the empty run. -/
theorem clear_sections_map_value (t : Text) :
    (clear_sections t).sections.map (fun s => s.value) =
      List.replicate t.sections.length [] := by
  simp only [clear_sections]
  induction t.sections with
  | nil => rfl
  | cons s rest ih => simp [List.replicate_succ, ih]

/-- Clearing the sections leaves every run style unchanged. -/
theorem clear_sections_map_style (t : Text) :
    (clear_sections t).sections.map (fun s => s.style) = t.sections.map (fun s => s.style) := by
  simp only [clear_sections]
  induction t.sections with
  | nil => rfl
  | cons s rest ih => simp [ih]

/-- Clearing the sections preserves the number of runs. -/
theorem clear_sections_length (t : Text) :
    (clear_sections t).sections.length = t.sections.length := by
  simp [clear_sections]

/-- Initialization always leaves exactly nine sections: either the incoming
nine are kept or the nine-section template is installed. -/
theorem initialize_sections_length (f : TextField) (t : Text) (b : Bool) :
    (f.initialize_text_sections t b).sections.length = 9 := by
  unfold TextField.initialize_text_sections
  split_ifs with h
  · exact h.2
  · rfl

/-- Counterexample for C3: with the cursor at the selection start the claim
classifies the cursor as before-or-at-start and demands the blink glyph in
run 1, but `update_text` takes the inside-selection branch and renders the
glyph in run 4, leaving run 1 empty. -/
theorem update_text_zone_cx :
    (zone_cx_field.update_text Text.default).sections.map (fun s => s.value) ≠
      claimed_runs zone_cx_field := by
  decide

/-- The run values produced by `update_text` coincide with the projector
spec for every input; the claim-level theorem instantiates this at states
with a cursor in range and a valid selection. -/
theorem update_text_map_value_eq (f : TextField) (t : Text) :
    (f.update_text t).sections.map (fun s => s.value) = projected_runs f := by
  have hv : (clear_sections (f.initialize_text_sections t false)).sections.map
      (fun s => s.value) = List.replicate 9 [] := by
    rw [clear_sections_map_value, initialize_sections_length]
  unfold TextField.update_text
  have hcg : (if f.cursor_blink then ['|'] else ([] : List Char)) =
      cursor_glyph f.cursor_blink := rfl
  rw [hcg]
  cases hs : f.selection with
  | none =>
      simp only [hs, projected_runs]
      rw [write_run_map_value, write_run_map_value, write_run_map_value, hv]
      rfl
  | some sel =>
      simp only [hs, projected_runs]
      split_ifs <;>
        (rw [write_run_map_value, write_run_map_value, write_run_map_value,
             write_run_map_value, write_run_map_value, hv]
         rfl)

/-- The projector spec always produces exactly nine runs. -/
theorem projected_runs_length (f : TextField) : (projected_runs f).length = 9 := by
  unfold projected_runs
  cases hs : f.selection with
  | none =>
      simp only [hs]
      rfl
  | some sel =>
      simp only [hs]
      split_ifs <;> rfl

/-- An update never touches the run styles: they are exactly the styles
left by the unforced initialization step. -/
theorem update_text_map_style_eq (f : TextField) (t : Text) :
    (f.update_text t).sections.map (fun s => s.style) =
      (f.initialize_text_sections t false).sections.map (fun s => s.style) := by
  unfold TextField.update_text
  cases hs : f.selection with
  | none =>
      simp only [hs]
      rw [write_run_map_style, write_run_map_style, write_run_map_style,
        clear_sections_map_style]
  | some sel =>
      simp only [hs]
      split_ifs <;>
        rw [write_run_map_style, write_run_map_style, write_run_map_style,
          write_run_map_style, write_run_map_style, clear_sections_map_style]

/-- C3 (amended): for every buffer, cursor in range, valid optional
selection and blink flag, `update_text` produces exactly the nine run values
of the projector spec — the three runs of the zone the cursor falls in
(classified strictly before the selection start, at-start-or-inside, or
at-or-after the selection end), the unselected and selected slices of the
other zones, and empty runs elsewhere, the cursor-glyph run holding the
blink glyph exactly when blink is on. -/
theorem update_text_projection (f : TextField) (t : Text)
    (hcur : f.cursor_pos ≤ f.text.length)
    (hsel : ∀ sel, f.selection = some sel → sel.endIdx ≤ f.text.length) :
    (f.update_text t).sections.map (fun s => s.value) = projected_runs f :=
  update_text_map_value_eq f t

/-- Witness for C3 (amended) at the scenario of the spec: buffer hi and
cursor 1 render h, the blink glyph and i in runs 0 to 2, with runs 3 to 8
empty. -/
theorem update_text_projection_witness :
    (hi_field.update_text Text.default).sections.map (fun s => s.value) =
      [['h'], ['|'], ['i'], [], [], [], [], [], []] := by
  have h := update_text_projection hi_field Text.default (by decide)
    (by intro sel hs; simp [hi_field, TextField.default] at hs)
  exact h.trans (by decide)

/-- C9: an update on a text that already carries nine runs keeps the run
count at nine and every run style (font, size, color) unchanged, because
unforced initialization is a no-op there; the nine styled runs are
re-created exactly when initialization is forced or the run count differs
from nine. -/
theorem update_text_preserves_styles (f : TextField) (t : Text)
    (h9 : t.sections.length = 9) :
    (f.update_text t).sections.length = 9 ∧
    (f.update_text t).sections.map (fun s => s.style) = t.sections.map (fun s => s.style) ∧
    f.initialize_text_sections t false = t ∧
    (∀ t2 : Text, (f.initialize_text_sections t2 true).sections = f.text_sections_template) ∧
    (∀ t2 : Text, t2.sections.length ≠ 9 →
      (f.initialize_text_sections t2 false).sections = f.text_sections_template) := by
  have hinit : f.initialize_text_sections t false = t := by
    simp [TextField.initialize_text_sections, h9]
  refine ⟨?_, ?_, hinit, ?_, ?_⟩
  · have h := congrArg List.length (update_text_map_value_eq f t)
    rw [List.length_map, projected_runs_length] at h
    exact h
  · rw [update_text_map_style_eq, hinit]
  · intro t2
    simp [TextField.initialize_text_sections]
  · intro t2 hne
    simp [TextField.initialize_text_sections, hne]

/-- Witness for C9 at a concrete nine-run text: the styles survive an
update unchanged. -/
theorem update_text_preserves_styles_witness :
    (hi_field.update_text nine_section_text).sections.map (fun s => s.style) =
      nine_section_text.sections.map (fun s => s.style) :=
  (update_text_preserves_styles hi_field nine_section_text rfl).2.1

/-- The background block never touches the pending parent link. -/
theorem background_apply_parent (bg : NodeBackground) (node : NodeBundleBuilder)
    (assets : AssetServer) :
    (bg.apply_to_node node assets).parent = node.parent := by
  cases bg with
  | none => rfl
  | color c => rfl
  | image img tint tex_scaling =>
      cases tex_scaling <;>
        simp [NodeBackground.apply_to_node, NodeBundleBuilder.insert,
          NodeBundleBuilder.bundle_type]

/-- The position block never touches the pending parent link. -/
theorem position_apply_parent (pos : NodePosition) (node : NodeBundleBuilder)
    (assets : AssetServer) :
    (pos.apply_to_node node assets).parent = node.parent := by
  cases pos <;> rfl

mutual

/-- Compiling any node spawns exactly the number of elements demanded by the
spec count. -/
theorem build_node_count : ∀ (n : UiNode) (parent : Option Nat) (assets : AssetServer)
    (fresh : Nat),
    ((UiNode.build_node n parent assets fresh).1).length = count_elements n
  | .canvas children, parent, assets, fresh => by
      simp only [UiNode.build_node, List.length_cons, count_elements]
      rw [build_node_list_count children (some fresh) assets (fresh + 1)]
      omega
  | .panel bg pos children, parent, assets, fresh => by
      simp only [UiNode.build_node, List.length_cons, count_elements]
      rw [build_node_list_count children (some fresh) assets (fresh + 1)]
      omega
  | .text bg pos tb, parent, assets, fresh => rfl
  | .textField bg pos tf, parent, assets, fresh => rfl

/-- Compiling a list of sibling nodes spawns the sum of the spec counts. -/
theorem build_node_list_count : ∀ (l : List UiNode) (parent : Option Nat)
    (assets : AssetServer) (fresh : Nat),
    ((UiNode.build_node_list l parent assets fresh).1).length = count_elements_list l
  | [], parent, assets, fresh => rfl
  | n :: rest, parent, assets, fresh => by
      simp only [UiNode.build_node_list, List.length_append, count_elements_list]
      rw [build_node_count n parent assets fresh]
      rw [build_node_list_count rest parent assets
        (UiNode.build_node n parent assets fresh).2]

end

/-- C5: the two-element split.  Every node compiles to exactly the spec
count of elements (text-bearing nodes always two, containers one plus their
children recursively, independent of content emptiness), and a Text or
TextField node compiles to the container element first — already carrying
the alignment the content block wrote into it before the container was
resolved — followed by the content element parented to the container. -/
theorem build_two_element_split :
    (∀ (n : UiNode) (parent : Option Nat) (assets : AssetServer) (fresh : Nat),
      ((UiNode.build_node n parent assets fresh).1).length = count_elements n) ∧
    (∀ (bg : NodeBackground) (pos : NodePosition) (tb : NodeText) (parent : Option Nat)
      (assets : AssetServer) (fresh : Nat),
      ∃ container content,
        (UiNode.build_node (.text bg pos tb) parent assets fresh).1 = [container, content] ∧
        container.id = fresh ∧
        container.parent = parent ∧
        content.parent = some container.id ∧
        container.style.align_content = (content_alignment_of_anchor tb.anchor_point).1 ∧
        container.style.justify_content = (content_alignment_of_anchor tb.anchor_point).2 ∧
        container.style.align_items = (item_alignment_of_anchor tb.anchor_point).1 ∧
        container.style.justify_items = (item_alignment_of_anchor tb.anchor_point).2) ∧
    (∀ (bg : NodeBackground) (pos : NodePosition) (tf : NodeTextField) (parent : Option Nat)
      (assets : AssetServer) (fresh : Nat),
      ∃ container content,
        (UiNode.build_node (.textField bg pos tf) parent assets fresh).1 =
          [container, content] ∧
        container.id = fresh ∧
        container.parent = parent ∧
        content.parent = some container.id ∧
        container.style.align_content = (content_alignment_of_anchor tf.anchor_point).1 ∧
        container.style.justify_content = (content_alignment_of_anchor tf.anchor_point).2 ∧
        container.style.align_items = (item_alignment_of_anchor tf.anchor_point).1 ∧
        container.style.justify_items = (item_alignment_of_anchor tf.anchor_point).2) := by
  refine ⟨fun n parent assets fresh => build_node_count n parent assets fresh, ?_, ?_⟩
  · intro bg pos tb parent assets fresh
    refine ⟨_, _, rfl, rfl, ?_, rfl, rfl, rfl, rfl, rfl⟩
    show (NodeText.apply_to_parent tb
      (NodePosition.apply_to_node pos
        (NodeBackground.apply_to_node bg
          (NodeBundleBuilder.default.set_parent parent) assets) assets) assets).parent = parent
    have h1 : ∀ node, (NodeText.apply_to_parent tb node assets).parent = node.parent :=
      fun node => rfl
    rw [h1, position_apply_parent, background_apply_parent]
    rfl
  · intro bg pos tf parent assets fresh
    refine ⟨_, _, rfl, rfl, ?_, rfl, rfl, rfl, rfl, rfl⟩
    show (NodeTextField.apply_to_parent tf
      (NodePosition.apply_to_node pos
        (NodeBackground.apply_to_node bg
          (NodeBundleBuilder.default.set_parent parent) assets) assets) assets).parent = parent
    have h1 : ∀ node, (NodeTextField.apply_to_parent tf node assets).parent = node.parent :=
      fun node => rfl
    rw [h1, position_apply_parent, background_apply_parent]
    rfl

end StreamlineUi
